import Mathlib

set_option maxRecDepth 4000

/- Verification of the scraping core in src/mercadopublico.py
   (class MercadoPublicoScraper): the retry fetcher, the postback
   downloader content classification, the attachment table row parser,
   the detail page PDF report link extraction, and the scrape_purchase
   orchestrator. Python strings are modelled as Lean String values,
   byte strings as List Nat, and the effectful fetch layer as explicit
   outcome sequences. -/

/-- Whether the first list is an initial segment of the second,
modelling Python startswith on character or byte sequences. -/
def matchesAt {α : Type} [BEq α] : List α → List α → Bool
  | [], _ => true
  | _ :: _, [] => false
  | p :: ps, c :: cs => p == c && matchesAt ps cs

/-- Substring search, modelling the Python in operator on str and bytes. -/
def hasSubList {α : Type} [BEq α] (pat : List α) : List α → Bool
  | [] => pat.isEmpty
  | c :: cs => matchesAt pat (c :: cs) || hasSubList pat cs

/-- Search for an occurrence of the pattern that is followed by at least one
further element, modelling a regex occurrence whose tail group is nonempty. -/
def hasSubWithTail {α : Type} [BEq α] (pat : List α) : List α → Bool
  | [] => false
  | c :: cs =>
    (matchesAt pat (c :: cs) && decide (pat.length < (c :: cs).length)) ||
      hasSubWithTail pat cs

/-- Python pat in s on strings. -/
def strHasSub (s pat : String) : Bool := hasSubList pat.toList s.toList

/-- Python s.startswith(pat). -/
def strStarts (s pat : String) : Bool := matchesAt pat.toList s.toList

/-- Python s.endswith(pat). -/
def strEndsWith (s pat : String) : Bool := matchesAt pat.toList.reverse s.toList.reverse

/-- ASCII lowercase of one character, the case used by the scraper. -/
def lowerChar (c : Char) : Char :=
  if 'A' ≤ c ∧ c ≤ 'Z' then Char.ofNat (c.toNat + 32) else c

/-- Python s.lower() on the ASCII strings this scraper compares. -/
def strLower (s : String) : String := String.mk (s.toList.map lowerChar)

/-- Split a character list at every occurrence of the separator. -/
def splitChar (sep : Char) : List Char → List (List Char)
  | [] => [[]]
  | c :: cs =>
    if c == sep then [] :: splitChar sep cs
    else
      match splitChar sep cs with
      | [] => [[c]]
      | g :: gs => (c :: g) :: gs

/-- Split a character list at the first occurrence of the separator; the
second component starts with the separator when one is present. -/
def breakAtChar (sep : Char) : List Char → List Char × List Char
  | [] => ([], [])
  | c :: cs =>
    if c == sep then ([], c :: cs)
    else
      match breakAtChar sep cs with
      | (a, b) => (c :: a, b)

/- ===================== Rate-limited fetcher (_fetch) ===================== -/

/-- One attempt as observed by the retry loop of MercadoPublicoScraper._fetch
(src/mercadopublico.py lines 58-88): an HTTP response with a status code and
a body, a timeout, or a transport error.  The timeout and transport error
cases are caught by the except branches of the loop, so no attempt outcome
escapes the loop as an exception. -/
inductive AttemptOutcome where
  | response (status : Nat) (body : String)
  | timedOut
  | netError (msg : String)
  deriving Repr, DecidableEq

/-- An iteration of the retry loop returns a value only for a status 200
response; a 429 sleeps and every other response or failure is logged, and in
all non-200 cases the loop moves on to the next attempt. -/
def attemptSucceeds : AttemptOutcome → Option String
  | AttemptOutcome.response st body => if st = 200 then some body else none
  | _ => none

/-- The retry loop of _fetch: at most fuel further attempts, idx attempts
already performed.  Returns the fetched body (or none) together with the
total number of request attempts performed. -/
def fetchFrom (o : Nat → AttemptOutcome) : Nat → Nat → Option String × Nat
  | 0, idx => (none, idx)
  | fuel + 1, idx =>
    match attemptSucceeds (o idx) with
    | some body => (some body, idx + 1)
    | none => fetchFrom o fuel (idx + 1)

/-- _fetch with a given max_retries bound (the constructor default is 3). -/
def fetchWithRetries (o : Nat → AttemptOutcome) (maxRetries : Nat) :
    Option String × Nat :=
  fetchFrom o maxRetries 0

theorem fetchFrom_no_success (o : Nat → AttemptOutcome)
    (h : ∀ i, attemptSucceeds (o i) = none) :
    ∀ (fuel idx : Nat), fetchFrom o fuel idx = (none, idx + fuel) := by
  intro fuel
  induction fuel with
  | zero => intro idx; rfl
  | succ k ih =>
    intro idx
    simp only [fetchFrom, h idx]
    rw [ih (idx + 1)]
    congr 1
    omega

/- ================ Postback downloader (_download_via_postback) ============ -/

/-- The four bytes %PDF. -/
def pdfMagic : List Nat := [37, 80, 68, 70]

/-- The eight PNG signature bytes. -/
def pngMagic : List Nat := [137, 80, 78, 71, 13, 10, 26, 10]

/-- The two JPEG signature bytes \xff\xd8. -/
def jpegMagic : List Nat := [255, 216]

/-- The bytes of the ASCII text <!DOCTYPE, compared case sensitively. -/
def doctypeBytes : List Nat := [60, 33, 68, 79, 67, 84, 89, 80, 69]

/-- The bytes of the ASCII text <html, compared against the lowercased head. -/
def htmlTagBytes : List Nat := [60, 104, 116, 109, 108]

/-- bytes.lower() on one byte: ASCII uppercase letters are shifted. -/
def lowerByte (b : Nat) : Nat := if 65 ≤ b ∧ b ≤ 90 then b + 32 else b

/-- The HTML error page heuristic of _download_via_postback (line 431):
the first 100 bytes contain <!DOCTYPE, or their lowercasing contains <html. -/
def looksLikeHtml (c : List Nat) : Bool :=
  hasSubList doctypeBytes (c.take 100) ||
    hasSubList htmlTagBytes ((c.take 100).map lowerByte)

/-- The content classification of _download_via_postback (lines 424-437) for a
truthy (nonempty) POST body: known binary signatures are accepted, then
HTML-looking bodies are rejected, and anything else is accepted. -/
def classifyPostbackContent (c : List Nat) : Option (List Nat) :=
  if c.take 4 == pdfMagic || c.take 8 == pngMagic || c.take 2 == jpegMagic then
    some c
  else if looksLikeHtml c then none
  else some c

/-- _download_via_postback given the outcome of the form POST: a falsy body
(absent, or present but empty, since the code tests if content:) yields none,
otherwise the body is classified by its leading bytes. -/
def downloadViaPostback (postResult : Option (List Nat)) : Option (List Nat) :=
  match postResult with
  | some c => if c.isEmpty then none else classifyPostbackContent c
  | none => none

/- ================= Attachment table parser (_parse_attachments_page) ====== -/

/-- An anchor tag with an href attribute, as found inside a table cell. -/
structure Anchor where
  href : String
  deriving Repr, DecidableEq

/-- An element carrying an onclick attribute, as found inside a table cell. -/
structure ClickElem where
  onclick : String
  deriving Repr, DecidableEq

/-- One td cell of an attachments table row: its stripped text
(get_text(strip=True)), its anchor tags with href in document order, and its
elements carrying an onclick handler in document order. -/
structure Cell where
  text : String
  anchors : List Anchor
  clickElems : List ClickElem
  deriving Repr, DecidableEq

/-- An input element of type image, with its name and id attributes
(missing attributes are the empty string, matching get with default). -/
structure ImgInput where
  name : String
  id : String
  deriving Repr, DecidableEq

/-- One table row as enumerated by the parser loop: its direct-child td
cells and the first input of type image found anywhere in the row. -/
structure Row where
  cells : List Cell
  imgInput : Option ImgInput
  deriving Repr, DecidableEq

/-- One parsed attachment entry, as appended by _parse_attachments_page. -/
structure Attachment where
  filename : String
  file_type : String
  date : String
  download_url : Option String
  postback_button : Option String
  deriving Repr, DecidableEq

def BASE_URL : String := "https://www.mercadopublico.cl"

/-- https?:// scheme recognition, yielding the scheme and the remainder. -/
def splitScheme (url : String) : Option (String × String) :=
  if strStarts url "http://" then some ("http", String.mk (url.toList.drop 7))
  else if strStarts url "https://" then some ("https", String.mk (url.toList.drop 8))
  else none

/-- The scheme and network location of an absolute http(s) URL. -/
def schemeHost (url : String) : String :=
  match splitScheme url with
  | some (sc, rest) => sc ++ "://" ++ String.mk (breakAtChar '/' rest.toList).1
  | none => ""

/-- The base URL truncated after its last slash. -/
def dirOf (url : String) : String :=
  String.mk ((url.toList.reverse.drop (breakAtChar '/' url.toList.reverse).1.length).reverse)

/-- Model of urllib.parse.urljoin restricted to the http(s) URL shapes this
scraper passes to it: an absolute second argument wins, a root-relative one
is joined to the scheme and host, and any other is joined to the directory
of the base.  Only the fact that it always yields a URL string (never an
absent value) matters for the claims below. -/
def urljoinM (base rel : String) : String :=
  if strStarts rel "http://" || strStarts rel "https://" then rel
  else if strStarts rel "/" then schemeHost base ++ rel
  else dirOf base ++ rel

/-- The header labels skipped by the row filter (line 322), lowercase. -/
def headerLabels : List String := ["nombre del anexo", "nombre", "anexo"]

/-- The stripped text of the first cell of a row (the candidate filename). -/
def rowFilename (row : Row) : String :=
  match row.cells with
  | c :: _ => c.text
  | [] => ""

/-- The stripped text of the second cell of a row (the declared type). -/
def rowFileType (row : Row) : String :=
  match row.cells with
  | _ :: c :: _ => c.text
  | _ => ""

/-- The stripped text of the third cell of a row (the declared date). -/
def rowDate (row : Row) : String :=
  match row.cells with
  | _ :: _ :: c :: _ => c.text
  | _ => ""

/-- The row filter of _parse_attachments_page (lines 315-327): at least three
direct cells, a nonempty first cell text that is not a known header label,
containing a dot and at most 100 characters long. -/
def rowQualifies (row : Row) : Bool :=
  match row.cells with
  | c0 :: _ :: _ :: _ =>
    let fn := c0.text
    !fn.toList.isEmpty && !(headerLabels.contains (strLower fn)) &&
      fn.toList.contains '.' && decide (fn.length ≤ 100)
  | _ => false

/-- Method 1 (lines 334-340): the first anchor of each cell in turn; the
first cell whose first anchor has a nonempty non-javascript href yields the
joined URL. -/
def method1 (baseUrl : String) : List Cell → Option String
  | [] => none
  | c :: cs =>
    match c.anchors with
    | a :: _ =>
      if !a.href.toList.isEmpty && !(strStarts a.href "javascript") then
        some (urljoinM baseUrl a.href)
      else method1 baseUrl cs
    | [] => method1 baseUrl cs

/-- The interior single-quoted segments of a string: the candidate texts of
the quoted group of a re.search over the onclick attribute. -/
def quoteChar : Char := Char.ofNat 39

def interiorQuoted (s : String) : List String :=
  (((splitChar quoteChar s.toList).drop 1).dropLast).map String.mk

/-- A quoted segment matching the absolute URL onclick pattern (line 348):
the group starts with https?:// followed by at least one character and, being
greedy over non-quote characters, extends to the whole segment. -/
def isAbsUrlSeg (s : String) : Bool :=
  (strStarts s "http://" && decide (7 < s.length)) ||
    (strStarts s "https://" && decide (8 < s.length))

/-- A quoted segment matching the relative .pdf onclick pattern (line 353,
case insensitive): a leading slash, at least one further character, then
.pdf somewhere after it. -/
def isRelPdfSeg (s : String) : Bool :=
  strStarts s "/" && hasSubList ".pdf".toList ((strLower s).toList.drop 2)

/-- The two regex probes of method 2 applied to one onclick text: first the
quoted absolute URL pattern over the whole text, then the quoted relative
.pdf pattern, the latter prefixed with the fixed base URL. -/
def onclickDirectUrl (onclick : String) : Option String :=
  match (interiorQuoted onclick).find? isAbsUrlSeg with
  | some u => some u
  | none =>
    match (interiorQuoted onclick).find? isRelPdfSeg with
    | some u => some (BASE_URL ++ u)
    | none => none

/-- The first onclick handler of a cell that yields a URL (the inner loop of
method 2 breaks on the first match within a cell). -/
def cellOnclickUrl (c : Cell) : Option String :=
  c.clickElems.findSome? (fun e => onclickDirectUrl e.onclick)

/-- Method 2 (lines 343-356): the outer loop over cells does not stop after
a match, so a later cell with a matching handler overwrites an earlier one;
the final value is the match of the last matching cell. -/
def method2 (cells : List Cell) : Option String :=
  cells.reverse.findSome? cellOnclickUrl

/-- The direct URL resolved for a row: method 1, then method 2. -/
def resolvedDirect (baseUrl : String) (row : Row) : Option String :=
  match method1 baseUrl row.cells with
  | some u => some u
  | none => method2 row.cells

/-- Method 3 (lines 360-371) name extraction: the first input of type image
in the row yields its name when the name is nonempty and the name or id
carries a Show marker. -/
def imgButtonName (row : Row) : Option String :=
  match row.imgInput with
  | none => none
  | some i =>
    if !i.name.toList.isEmpty &&
        (strHasSub i.name "imgShow" || strHasSub i.id "imgShow" ||
          strHasSub i.name "Show") then
      some i.name
    else none

/-- The attachment entry appended for a direct URL row (lines 373-380). -/
def mkDirect (row : Row) (u : String) : Attachment :=
  ⟨rowFilename row, rowFileType row, rowDate row, some u, none⟩

/-- The attachment entry appended for a postback row (lines 382-389). -/
def mkPostback (row : Row) (nm : String) : Attachment :=
  ⟨rowFilename row, rowFileType row, rowDate row, none, some nm⟩

/-- The body of the row loop of _parse_attachments_page for one row, given
the set of postback button names already seen: the produced entry, if any,
and the updated seen set.  A row whose button name was already seen is
skipped by the continue on line 368. -/
def processRow (baseUrl : String) (seen : List String) (row : Row) :
    Option Attachment × List String :=
  if rowQualifies row then
    match resolvedDirect baseUrl row with
    | some u => (some (mkDirect row u), seen)
    | none =>
      match imgButtonName row with
      | some nm =>
        if seen.contains nm then (none, seen)
        else (some (mkPostback row nm), nm :: seen)
      | none => (none, seen)
  else (none, seen)

/-- The row loop over the enumerated rows, threading the seen set. -/
def parseRowsFrom (baseUrl : String) : List Row → List String → List Attachment
  | [], _ => []
  | r :: rs, seen =>
    match processRow baseUrl seen r with
    | (some a, s2) => a :: parseRowsFrom baseUrl rs s2
    | (none, s2) => parseRowsFrom baseUrl rs s2

/-- _parse_attachments_page restricted to its attachment list output, taking
the rows enumerated from the page tables (seen_buttons starts empty). -/
def parseAttachmentRows (baseUrl : String) (rows : List Row) : List Attachment :=
  parseRowsFrom baseUrl rows []

/-- An attachment entry carries exactly one fetch mode. -/
def modeOk (a : Attachment) : Bool :=
  (a.download_url.isSome && a.postback_button.isNone) ||
    (a.download_url.isNone && a.postback_button.isSome)

/-- A row that the parser would resolve to a postback on the given button
name: it qualifies, resolves no direct URL, and its image input yields the
name.  This predicate is independent of the seen set. -/
def rowResolvesPostback (baseUrl : String) (row : Row) (nm : String) : Bool :=
  rowQualifies row && (resolvedDirect baseUrl row).isNone &&
    (imgButtonName row == some nm)

/- ===================== Claims C2, C3 (fetcher) =========================== -/

/-- C2 counterexample: against the claim that a non-429 4xx/5xx response is
not retried (one single request attempt per call), a fetch facing
unconditional 404 responses performs 3 request attempts, not 1: the retry
loop of _fetch falls through to the next attempt on every non-200 status. -/
theorem c2_counterexample_404_retried :
    (fetchWithRetries (fun _ => AttemptOutcome.response 404 "Not Found") 3).2 = 3 ∧
      (fetchWithRetries (fun _ => AttemptOutcome.response 404 "Not Found") 3).2 ≠ 1 := by
  constructor <;> decide

/-- C2 (amended): for every fetch whose HTTP response status is a non-429
4xx or 5xx code on every attempt, _fetch retries until the max_retries bound
is exhausted (performing exactly maxRetries request attempts) and the caller
then receives none. -/
theorem c2_amended_4xx5xx_retried_until_exhaustion
    (o : Nat → AttemptOutcome) (st : Nat)
    (h4 : 400 ≤ st) (h5 : st < 600) (h429 : st ≠ 429)
    (h : ∀ i, ∃ b, o i = AttemptOutcome.response st b) (maxRetries : Nat) :
    fetchWithRetries o maxRetries = (none, maxRetries) := by
  have hne : st ≠ 200 := by omega
  have hall : ∀ i, attemptSucceeds (o i) = none := by
    intro i
    obtain ⟨b, hb⟩ := h i
    rw [hb]
    simp [attemptSucceeds, hne]
  have hres := fetchFrom_no_success o hall maxRetries 0
  simpa [fetchWithRetries] using hres

/-- C2 witness for the amended theorem at a concrete all-404 outcome
sequence and the default max_retries of 3. -/
theorem c2_amended_witness :
    fetchWithRetries (fun _ => AttemptOutcome.response 404 "nf") 3 = (none, 3) :=
  c2_amended_4xx5xx_retried_until_exhaustion
    (fun _ => AttemptOutcome.response 404 "nf") 404
    (by decide) (by decide) (by decide) (fun _ => ⟨"nf", rfl⟩) 3

/-- C3: for a URL answering HTTP 503 on every request, _fetch performs
exactly maxRetries request attempts (the default bound is 3) and returns
none.  Timeouts and transport errors are absorbed by the except branches of
the loop (modelled as the timedOut and netError outcomes), so the call never
propagates an exception: it is a total function into an optional result. -/
theorem c3_unconditional_503_exhausts_max_retries
    (o : Nat → AttemptOutcome)
    (h : ∀ i, ∃ b, o i = AttemptOutcome.response 503 b) (maxRetries : Nat) :
    fetchWithRetries o maxRetries = (none, maxRetries) := by
  have hall : ∀ i, attemptSucceeds (o i) = none := by
    intro i
    obtain ⟨b, hb⟩ := h i
    rw [hb]
    rfl
  have hres := fetchFrom_no_success o hall maxRetries 0
  simpa [fetchWithRetries] using hres

/-- C3 witness at a concrete all-503 outcome sequence with max_retries 3. -/
theorem c3_unconditional_503_witness :
    fetchWithRetries (fun _ => AttemptOutcome.response 503 "Service Unavailable") 3 =
      (none, 3) :=
  c3_unconditional_503_exhausts_max_retries
    (fun _ => AttemptOutcome.response 503 "Service Unavailable")
    (fun _ => ⟨"Service Unavailable", rfl⟩) 3

/- ===================== Claims C4, C9 (postback) ========================== -/

/-- C4: a postback body beginning with the four bytes %PDF is returned as
file content no matter what follows (HTML-looking bytes included), and a
body whose first 100 bytes contain <!DOCTYPE or whose lowercased first 100
bytes contain <html, and which carries none of the three recognized binary
signatures, yields none. -/
theorem c4_postback_signature_classification (c : List Nat) :
    (c.take 4 = pdfMagic → downloadViaPostback (some c) = some c) ∧
      (looksLikeHtml c = true → c.take 4 ≠ pdfMagic → c.take 8 ≠ pngMagic →
        c.take 2 ≠ jpegMagic → downloadViaPostback (some c) = none) := by
  constructor
  · intro hp
    have hne : c ≠ [] := by
      intro h
      rw [h] at hp
      simp [pdfMagic] at hp
    have hemp : c.isEmpty = false := by
      cases c with
      | nil => exact absurd rfl hne
      | cons x xs => rfl
    simp [downloadViaPostback, hemp, classifyPostbackContent, hp]
  · intro hh h1 h2 h3
    have hne : c ≠ [] := by
      intro h
      rw [h] at hh
      simp [looksLikeHtml, hasSubList, doctypeBytes, htmlTagBytes] at hh
    have hemp : c.isEmpty = false := by
      cases c with
      | nil => exact absurd rfl hne
      | cons x xs => rfl
    simp [downloadViaPostback, hemp, classifyPostbackContent, hh, h1, h2, h3]

/-- C4 witness: a %PDF-headed body immediately followed by <!DOCTYPE bytes is
accepted unchanged, and a bare <!DOCTYPE body with no binary signature is
rejected as an error page. -/
theorem c4_postback_witness :
    downloadViaPostback (some (pdfMagic ++ doctypeBytes)) =
        some (pdfMagic ++ doctypeBytes) ∧
      downloadViaPostback (some doctypeBytes) = none :=
  ⟨(c4_postback_signature_classification (pdfMagic ++ doctypeBytes)).1 (by decide),
   (c4_postback_signature_classification doctypeBytes).2
     (by decide) (by decide) (by decide) (by decide)⟩

/-- C9: a postback POST that completes with an empty byte string makes
_download_via_postback return none, the same value as a failed POST, because
line 424 tests the body for truthiness rather than against None. -/
theorem c9_empty_postback_body_indistinguishable :
    downloadViaPostback (some []) = none ∧
      downloadViaPostback (some []) = downloadViaPostback none :=
  ⟨rfl, rfl⟩

/- ===================== Claims C5, C6, C7 (parser) ======================== -/

theorem processRow_some_shape (b : String) (seen : List String) (row : Row)
    (a : Attachment) (h : (processRow b seen row).1 = some a) :
    (∃ u, a = mkDirect row u) ∨ ∃ nm, a = mkPostback row nm := by
  unfold processRow at h
  split at h
  · split at h
    · exact Or.inl ⟨_, (Option.some_inj.mp h.symm)⟩
    · split at h
      · split at h
        · simp at h
        · exact Or.inr ⟨_, (Option.some_inj.mp h.symm)⟩
      · simp at h
  · simp at h

theorem parseRowsFrom_all (b : String) (p : Attachment → Bool)
    (hp : ∀ seen row a, (processRow b seen row).1 = some a → p a = true) :
    ∀ (rows : List Row) (seen : List String),
      (parseRowsFrom b rows seen).all p = true := by
  intro rows
  induction rows with
  | nil => intro seen; rfl
  | cons r rs ih =>
    intro seen
    unfold parseRowsFrom
    cases hpr : processRow b seen r with
    | mk o s2 =>
      cases o with
      | some a =>
        have ha : p a = true := hp seen r a (by rw [hpr])
        simp [List.all_cons, ha, ih s2]
      | none => simp [ih s2]

theorem processRow_modeOk (b : String) (seen : List String) (row : Row)
    (a : Attachment) (h : (processRow b seen row).1 = some a) :
    modeOk a = true := by
  rcases processRow_some_shape b seen row a h with ⟨u, rfl⟩ | ⟨nm, rfl⟩ <;>
    simp [modeOk, mkDirect, mkPostback]

/-- C5: every attachment entry produced by the row parser has exactly one
fetch mode (a direct download URL and no postback button, or a postback
button and no direct URL), and a qualifying row that resolves neither a
direct URL nor a postback button name produces no entry at all. -/
theorem c5_exactly_one_fetch_mode (b : String) (rows : List Row) :
    ((parseAttachmentRows b rows).all modeOk = true) ∧
      ∀ (seen : List String) (row : Row), resolvedDirect b row = none →
        imgButtonName row = none → (processRow b seen row).1 = none := by
  constructor
  · exact parseRowsFrom_all b modeOk (processRow_modeOk b) rows []
  · intro seen row h1 h2
    unfold processRow
    split
    · rw [h1, h2]
    · rfl

def sampleFileCell : Cell := ⟨"COT_123.pdf", [], []⟩

def sampleTypeCell : Cell := ⟨"Cotizacion", [], []⟩

def sampleDateCell : Cell := ⟨"23-06-2025", [], []⟩

def sampleLinkCell : Cell := ⟨"", [⟨"/docs/COT_123.pdf"⟩], []⟩

/-- A data row carrying a direct href link. -/
def sampleDirectRow : Row :=
  ⟨[sampleFileCell, sampleTypeCell, sampleDateCell, sampleLinkCell], none⟩

/-- A data row with no link, no handler and no image button. -/
def sampleBareRow : Row :=
  ⟨[sampleFileCell, sampleTypeCell, sampleDateCell], none⟩

/-- A data row whose only download mechanism is an imgShow postback button. -/
def samplePostbackRow : Row :=
  ⟨[sampleFileCell, sampleTypeCell, sampleDateCell],
    some ⟨"rptAttachment$ctl01$imgShow", "rptAttachment_ctl01_imgShow"⟩⟩

/-- C5 witness: the invariant evaluated on a concrete direct-link row and a
concrete postback row, and the no-entry conclusion at a concrete row with no
resolvable mechanism. -/
theorem c5_exactly_one_fetch_mode_witness :
    ((parseAttachmentRows BASE_URL [sampleDirectRow, samplePostbackRow]).all
        modeOk = true) ∧
      (processRow BASE_URL [] sampleBareRow).1 = none :=
  ⟨(c5_exactly_one_fetch_mode BASE_URL [sampleDirectRow, samplePostbackRow]).1,
   (c5_exactly_one_fetch_mode BASE_URL []).2 [] sampleBareRow
     (by decide) (by decide)⟩

theorem parseRowsFrom_postback_count (b nm : String) :
    ∀ (rows : List Row) (seen : List String),
      (parseRowsFrom b rows seen).countP (fun a => a.postback_button == some nm) =
        if seen.contains nm then 0
        else if rows.any (fun r => rowResolvesPostback b r nm) then 1 else 0 := by
  intro rows
  induction rows with
  | nil =>
    intro seen
    simp [parseRowsFrom]
  | cons r rs ih =>
    intro seen
    unfold parseRowsFrom
    unfold processRow
    by_cases hq : rowQualifies r
    · simp only [hq, if_true]
      cases hd : resolvedDirect b r with
      | some u =>
        have hrp : rowResolvesPostback b r nm = false := by
          simp [rowResolvesPostback, hd]
        simp [List.countP_cons, mkDirect, ih seen, List.any_cons, hrp]
      | none =>
        cases hi : imgButtonName r with
        | none =>
          have hrp : rowResolvesPostback b r nm = false := by
            simp [rowResolvesPostback, hi]
          simp [ih seen, List.any_cons, hrp]
        | some nm2 =>
          dsimp only
          by_cases hs : seen.contains nm2 = true
          · have hmem : nm2 ∈ seen := by simpa using hs
            rw [hs]
            simp only [if_true]
            by_cases he : nm2 = nm
            · subst he
              rw [ih seen]
              have hsn : seen.contains nm2 = true := hs
              rw [hsn]
              simp
            · have hrp : rowResolvesPostback b r nm = false := by
                simp [rowResolvesPostback, hi, he]
              rw [ih seen]
              simp [List.any_cons, hrp]
          · have hmemf : seen.contains nm2 = false := by simpa using hs
            rw [hmemf]
            simp only [Bool.false_eq_true, if_false]
            by_cases he : nm2 = nm
            · subst he
              have hrp : rowResolvesPostback b r nm2 = true := by
                simp [rowResolvesPostback, hq, hd, hi]
              have hcount := ih (nm2 :: seen)
              have hin : (nm2 :: seen).contains nm2 = true := by
                simp [List.contains_cons]
              rw [hin] at hcount
              simp only [if_true] at hcount
              rw [List.countP_cons, hcount]
              have hbeq : ((mkPostback r nm2).postback_button == some nm2) = true := by
                simp [mkPostback]
              rw [hbeq, hmemf]
              simp [List.any_cons, hrp]
            · have hrp : rowResolvesPostback b r nm = false := by
                simp [rowResolvesPostback, hi, he]
              have hcount := ih (nm2 :: seen)
              have hne2 : (nm == nm2) = false := by
                rw [beq_eq_false_iff_ne]
                exact fun hx => he hx.symm
              have hin : (nm2 :: seen).contains nm = seen.contains nm := by
                rw [List.contains_cons, hne2, Bool.false_or]
              rw [hin] at hcount
              rw [List.countP_cons, hcount]
              have hbeq : ((mkPostback r nm2).postback_button == some nm) = false := by
                simp [mkPostback, he]
              rw [hbeq]
              simp [List.any_cons, hrp]
    · simp only [hq, if_false]
      have hrp : rowResolvesPostback b r nm = false := by
        simp [rowResolvesPostback, hq]
      simp [ih seen, List.any_cons, hrp, Bool.false_eq_true]

/-- C6: when two or more qualifying rows of a page resolve, via the
image-button postback rule, to the same button name, the parsed list holds
exactly one entry carrying that postback button name: rows reusing a name
already seen are skipped by the seen_buttons check. -/
theorem c6_postback_button_dedup (b nm : String) (rows : List Row)
    (h : 2 ≤ rows.countP (fun r => rowResolvesPostback b r nm)) :
    (parseAttachmentRows b rows).countP
      (fun a => a.postback_button == some nm) = 1 := by
  have hpos : 0 < rows.countP (fun r => rowResolvesPostback b r nm) := by omega
  have hex : ∃ r ∈ rows, rowResolvesPostback b r nm = true :=
    List.countP_pos_iff.mp hpos
  have hany : rows.any (fun r => rowResolvesPostback b r nm) = true := by
    rw [List.any_eq_true]
    exact hex
  have := parseRowsFrom_postback_count b nm rows []
  simpa [parseAttachmentRows, hany] using this

/-- C6 witness: two concrete rows reusing the same imgShow button name yield
exactly one postback entry. -/
theorem c6_postback_button_dedup_witness :
    2 ≤ [samplePostbackRow, samplePostbackRow].countP
        (fun r => rowResolvesPostback BASE_URL r "rptAttachment$ctl01$imgShow") ∧
      (parseAttachmentRows BASE_URL [samplePostbackRow, samplePostbackRow]).countP
        (fun a => a.postback_button == some "rptAttachment$ctl01$imgShow") = 1 :=
  ⟨by decide,
   c6_postback_button_dedup BASE_URL "rptAttachment$ctl01$imgShow"
     [samplePostbackRow, samplePostbackRow] (by decide)⟩

theorem rowQualifies_filename (row : Row) (hq : rowQualifies row = true) :
    (rowFilename row).toList.contains '.' = true ∧
      (rowFilename row).length ≤ 100 := by
  unfold rowQualifies at hq
  cases hc : row.cells with
  | nil => rw [hc] at hq; simp at hq
  | cons c0 rest =>
    cases rest with
    | nil => rw [hc] at hq; simp at hq
    | cons c1 rest2 =>
      cases rest2 with
      | nil => rw [hc] at hq; simp at hq
      | cons c2 rest3 =>
        rw [hc] at hq
        simp only [Bool.and_eq_true, decide_eq_true_eq] at hq
        have hfn : rowFilename row = c0.text := by
          unfold rowFilename
          rw [hc]
        rw [hfn]
        exact ⟨hq.1.2, hq.2⟩

theorem processRow_filename_ok (b : String) (seen : List String) (row : Row)
    (a : Attachment) (h : (processRow b seen row).1 = some a) :
    a.filename.toList.contains '.' = true ∧ a.filename.length ≤ 100 := by
  have hq : rowQualifies row = true := by
    by_contra hq
    unfold processRow at h
    rw [if_neg hq] at h
    simp at h
  have hfn := rowQualifies_filename row hq
  rcases processRow_some_shape b seen row a h with ⟨u, rfl⟩ | ⟨nm, rfl⟩ <;>
    simpa [mkDirect, mkPostback] using hfn

/-- C7: a row whose first cell text lacks a dot or exceeds 100 characters
produces no attachment entry, and every entry in the parser output has a
filename that contains a dot and is at most 100 characters long. -/
theorem c7_filename_validation (b : String) (rows : List Row) :
    ((parseAttachmentRows b rows).all
        (fun a => a.filename.toList.contains '.' &&
          decide (a.filename.length ≤ 100)) = true) ∧
      ∀ (seen : List String) (row : Row),
        (rowFilename row).toList.contains '.' = false ∨
            100 < (rowFilename row).length →
          (processRow b seen row).1 = none := by
  constructor
  · refine parseRowsFrom_all b _ ?_ rows []
    intro seen row a h
    have hfo := processRow_filename_ok b seen row a h
    simp only [Bool.and_eq_true, decide_eq_true_eq]
    exact hfo
  · intro seen row hbad
    by_cases hq : rowQualifies row
    · exfalso
      have hfq := rowQualifies_filename row hq
      rcases hbad with hb | hb
      · rw [hfq.1] at hb
        simp at hb
      · have := hfq.2
        omega
    · unfold processRow
      rw [if_neg hq]

/-- A row whose first cell text has no dot (a decoration row). -/
def sampleNoDotRow : Row :=
  ⟨[⟨"Descargar", [], []⟩, sampleTypeCell, sampleDateCell],
    some ⟨"rptAttachment$ctl02$imgShow", ""⟩⟩

/-- C7 witness: the filename invariant evaluated on a concrete direct row,
and the no-entry conclusion at a concrete dotless row. -/
theorem c7_filename_validation_witness :
    ((parseAttachmentRows BASE_URL [sampleDirectRow]).all
        (fun a => a.filename.toList.contains '.' &&
          decide (a.filename.length ≤ 100)) = true) ∧
      (processRow BASE_URL [] sampleNoDotRow).1 = none :=
  ⟨(c7_filename_validation BASE_URL [sampleDirectRow]).1,
   (c7_filename_validation BASE_URL []).2 [] sampleNoDotRow (Or.inl (by decide))⟩

/- ================== Detail page link extraction (C8) ===================== -/

/-- A quoted onclick segment matched by the PDF report pattern of line 218:
the group is the whole quote-free segment whenever it holds an occurrence of
PDFReport.aspx?qs= followed by at least one character. -/
def pdfSegMatches (s : String) : Bool :=
  hasSubWithTail "PDFReport.aspx?qs=".toList s.toList

/-- The PDF report probe of _parse_detail_page (lines 216-224) on one
onclick text: when the text mentions PDFReport, the first quoted segment
matching the report pattern is taken, and a non-http match is prefixed with
the fixed base path. -/
def extractPdfReportUrl (onclick : String) : Option String :=
  if strHasSub onclick "PDFReport" then
    match (interiorQuoted onclick).find? pdfSegMatches with
    | some url =>
      some (if strStarts url "http" then url
            else BASE_URL ++ "/PurchaseOrder/Modules/PO/" ++ url)
    | none => none
  else none

/-- The components returned by urlparse for the http(s) URLs handled by
_normalize_url: scheme, network location, path and query. -/
structure UrlParts where
  scheme : String
  netloc : String
  path : String
  query : String
  deriving Repr, DecidableEq

def parseHttpUrl (u : String) : UrlParts :=
  match splitScheme u with
  | some (sc, rest) =>
    let hb := breakAtChar '/' rest.toList
    let pq := breakAtChar '?' hb.2
    ⟨sc, String.mk hb.1, String.mk pq.1, String.mk (pq.2.drop 1)⟩
  | none =>
    let pq := breakAtChar '?' u.toList
    ⟨"", "", String.mk pq.1, String.mk (pq.2.drop 1)⟩

/-- The manual path segment resolution of _normalize_url (lines 178-188):
a .. pops the previous segment when one is present and nonempty, a . is
dropped, anything else is appended. -/
def resolveDots (parts : List String) : List String :=
  parts.foldl (fun acc seg =>
    if seg = ".." then
      match acc.getLast? with
      | some lastSeg => if lastSeg = "" then acc else acc.dropLast
      | none => acc
    else if seg = "." then acc
    else acc ++ [seg]) []

def joinSlash : List String → String
  | [] => ""
  | [s] => s
  | s :: rest => s ++ "/" ++ joinSlash rest

def splitPathSegs (path : String) : List String :=
  (splitChar '/' path.toList).map String.mk

/-- _normalize_url (lines 169-197): URLs whose path holds no parent
references are returned unchanged; otherwise the path segments are resolved,
a leading slash is restored and the URL is reassembled with its query. -/
def normalizeUrl (url : String) : String :=
  let P := parseHttpUrl url
  if strHasSub P.path "/../" || strStarts P.path "../" then
    let joined := joinSlash (resolveDots (splitPathSegs P.path))
    let npath := if strStarts joined "/" then joined else "/" ++ joined
    if P.query.toList.isEmpty then P.scheme ++ "://" ++ P.netloc ++ npath
    else P.scheme ++ "://" ++ P.netloc ++ npath ++ "?" ++ P.query
  else url

/-- The PDF report half of _parse_detail_page: the onclick scan (a later
matching handler overwrites an earlier one), the href fallback used only
when the scan found nothing, and the final normalization (lines 212-267). -/
def parseDetailPdfUrl (onclicks : List String) (hrefs : List String) :
    Option String :=
  let fromClicks := onclicks.foldl (fun acc oc =>
    match extractPdfReportUrl oc with
    | some u => some u
    | none => acc) none
  let raw := match fromClicks with
    | some u => some u
    | none => hrefs.foldl (fun acc h =>
        match acc with
        | some _ => acc
        | none =>
          if strHasSub h "PDFReport" then
            some (if strStarts h "http" then h else urljoinM BASE_URL h)
          else acc) none
  raw.map normalizeUrl

/-- A detail page onclick handler holding the quoted relative report link
PDFReport.aspx?qs=XYZ (the quotes are written via quoteChar). -/
def sampleOnclick : String :=
  "window.open(" ++ String.mk [quoteChar] ++ "PDFReport.aspx?qs=XYZ" ++
    String.mk [quoteChar] ++ ",_blank);"

/-- C8: the quoted relative report link PDFReport.aspx?qs=XYZ in an onclick
handler resolves to exactly the fixed base path prepended to the relative
fragment. -/
theorem c8_pdf_report_relative_resolution :
    parseDetailPdfUrl [sampleOnclick] [] =
      some "https://www.mercadopublico.cl/PurchaseOrder/Modules/PO/PDFReport.aspx?qs=XYZ" := by
  decide

/- ================== Scrape orchestrator (scrape_purchase) ================ -/

/-- One downloaded attachment as appended to result attachments by
scrape_purchase (lines 536-542). -/
structure FetchedAttachment where
  filename : String
  file_type : String
  date : String
  content : List Nat
  content_type : String
  deriving Repr, DecidableEq

/-- The result dict of scrape_purchase (lines 465-470 plus the error key). -/
structure ScrapeResult where
  success : Bool
  error : Option String
  pdf_report : Option (List Nat)
  pdf_report_url : Option String
  attachments : List FetchedAttachment
  deriving Repr, DecidableEq

/-- The two links returned by _parse_detail_page. -/
structure DetailLinks where
  pdf_report_url : Option String
  attachments_url : Option String
  deriving Repr, DecidableEq

/-- The content type inference of lines 527-534. -/
def contentTypeFor (filename : String) : String :=
  let l := strLower filename
  if strEndsWith l ".pdf" then "application/pdf"
  else if strEndsWith l ".jpg" || strEndsWith l ".jpeg" then "image/jpeg"
  else if strEndsWith l ".png" then "image/png"
  else "application/octet-stream"

/-- The environment of one scrape_purchase run: the values produced by the
fetch and parse steps inside the try block.  fetchAtt i is the outcome of
the download attempt for the i-th attachment entry, through the direct URL
fetch or the postback; an Except.error models an exception raised at that
point, everything before being already assembled into the result dict. -/
structure ScrapeEnv where
  detailHtml : Option String
  links : DetailLinks
  pdfFetch : Option (List Nat)
  attachmentsHtml : Option String
  attachmentRows : List Attachment
  haveFormFields : Bool
  fetchAtt : Nat → Except String (Option (List Nat))

/-- Python truthiness of an optional string: absent or empty is falsy. -/
def truthyS : Option String → Bool
  | none => false
  | some s => !s.toList.isEmpty

/-- The per-attachment loop of scrape_purchase (lines 505-545): a direct URL
entry is fetched, a postback entry is posted only when the form fields dict
is truthy, anything else is skipped; a truthy content is appended to the
accumulator and an exception aborts the loop, handing back the attachments
assembled so far together with the error message. -/
def runAttachments (fetchAtt : Nat → Except String (Option (List Nat)))
    (haveFields : Bool) :
    List Attachment → Nat → List FetchedAttachment →
      List FetchedAttachment × Option String
  | [], _, acc => (acc, none)
  | att :: rest, i, acc =>
    let step : Except String (Option (List Nat)) :=
      if att.download_url.isSome then fetchAtt i
      else if att.postback_button.isSome && haveFields then fetchAtt i
      else Except.ok none
    match step with
    | Except.error msg => (acc, some msg)
    | Except.ok none => runAttachments fetchAtt haveFields rest (i + 1) acc
    | Except.ok (some c) =>
      if c.isEmpty then runAttachments fetchAtt haveFields rest (i + 1) acc
      else
        runAttachments fetchAtt haveFields rest (i + 1)
          (acc ++ [⟨att.filename, att.file_type, att.date, c,
            contentTypeFor att.filename⟩])

/-- The result dict as initialized on line 465. -/
def emptyResult : ScrapeResult := ⟨false, none, none, none, []⟩

/-- scrape_purchase (lines 441-553).  The result dict is mutated in place:
a falsy detail page aborts with an error, the report URL and report bytes
are recorded when truthy, the attachments branch runs only for a truthy
attachments URL and page, and an exception inside the attachment loop sets
the error key on the dict holding everything already appended, success
staying False; otherwise success is set to True at the end of the try. -/
def scrapePurchase (env : ScrapeEnv) : ScrapeResult :=
  if !truthyS env.detailHtml then
    { emptyResult with error := some "Failed to fetch detail page" }
  else
    let pdfVal : Option (List Nat) :=
      if truthyS env.links.pdf_report_url then
        match env.pdfFetch with
        | some c => if c.isEmpty then none else some c
        | none => none
      else none
    let r2 : ScrapeResult :=
      { emptyResult with
          pdf_report_url := env.links.pdf_report_url
          pdf_report := pdfVal }
    if truthyS env.links.attachments_url then
      if truthyS env.attachmentsHtml then
        match runAttachments env.fetchAtt env.haveFormFields
            env.attachmentRows 0 [] with
        | (acc, none) => { r2 with success := true, attachments := acc }
        | (acc, some msg) => { r2 with error := some msg, attachments := acc }
      else { r2 with success := true }
    else { r2 with success := true }

/- ===================== Claims C1, C10 (orchestrator) ===================== -/

def attA : Attachment :=
  ⟨"a.pdf", "Cotizacion", "01-01-2025", some "https://x/a.pdf", none⟩

def attB : Attachment :=
  ⟨"b.pdf", "Cotizacion", "01-01-2025", some "https://x/b.pdf", none⟩

def attC : Attachment :=
  ⟨"c.pdf", "Cotizacion", "01-01-2025", some "https://x/c.pdf", none⟩

/-- A scrape run in which the first two attachment downloads succeed and the
third raises an exception. -/
def envC1 : ScrapeEnv :=
  ⟨some "<html>detail</html>",
   ⟨none, some "https://www.mercadopublico.cl/attachments"⟩,
   none,
   some "<html>attachments</html>",
   [attA, attB, attC],
   true,
   fun i =>
     if i = 0 then Except.ok (some [1, 2, 3])
     else if i = 1 then Except.ok (some [4, 5, 6])
     else Except.error "boom"⟩

/-- C1 counterexample: an exception raised after two attachments were
fetched and assembled yields success False, but the returned result still
holds the two already-fetched attachments, refuting the claimed
all-or-nothing behavior (the code appends into the result dict in place, so
the early return keeps them). -/
theorem c1_counterexample_attachments_not_discarded :
    (scrapePurchase envC1).success = false ∧
      (scrapePurchase envC1).error = some "boom" ∧
      (scrapePurchase envC1).attachments.length = 2 ∧
      (scrapePurchase envC1).attachments ≠ [] := by
  refine ⟨by decide, by decide, by decide, by decide⟩

/-- C1 (amended): when an exception is raised while downloading the third
attachment after two attachments were already fetched and assembled, the
returned result has success False and the error message recorded, and the
two already-fetched attachments ARE present in the returned result, in
order. -/
theorem c1_amended_exception_keeps_fetched_attachments
    (env : ScrapeEnv) (a1 a2 a3 : Attachment) (c1 c2 : List Nat) (msg : String)
    (hd : truthyS env.detailHtml = true)
    (hau : truthyS env.links.attachments_url = true)
    (hah : truthyS env.attachmentsHtml = true)
    (hrows : env.attachmentRows = [a1, a2, a3])
    (h1u : a1.download_url.isSome = true)
    (h2u : a2.download_url.isSome = true)
    (h3u : a3.download_url.isSome = true)
    (hf0 : env.fetchAtt 0 = Except.ok (some c1)) (hc1 : c1 ≠ [])
    (hf1 : env.fetchAtt 1 = Except.ok (some c2)) (hc2 : c2 ≠ [])
    (hf2 : env.fetchAtt 2 = Except.error msg) :
    (scrapePurchase env).success = false ∧
      (scrapePurchase env).error = some msg ∧
      (scrapePurchase env).attachments.map (fun f => f.content) = [c1, c2] := by
  have he1 : c1.isEmpty = false := by
    cases c1 with
    | nil => exact absurd rfl hc1
    | cons x xs => rfl
  have he2 : c2.isEmpty = false := by
    cases c2 with
    | nil => exact absurd rfl hc2
    | cons x xs => rfl
  have hrun : runAttachments env.fetchAtt env.haveFormFields
      env.attachmentRows 0 [] =
      ([⟨a1.filename, a1.file_type, a1.date, c1, contentTypeFor a1.filename⟩,
        ⟨a2.filename, a2.file_type, a2.date, c2, contentTypeFor a2.filename⟩],
        some msg) := by
    rw [hrows]
    unfold runAttachments
    rw [if_pos h1u, hf0]
    simp only [he1, Bool.false_eq_true, if_false]
    unfold runAttachments
    rw [if_pos h2u, hf1]
    simp only [he2, Bool.false_eq_true, if_false]
    unfold runAttachments
    rw [if_pos h3u, hf2]
    rfl
  unfold scrapePurchase
  rw [hd]
  simp only [Bool.not_true, Bool.false_eq_true, if_false]
  rw [hau, hah]
  simp only [if_true]
  rw [hrun]
  refine ⟨rfl, rfl, rfl⟩

/-- C1 witness for the amended theorem at the concrete environment. -/
theorem c1_amended_witness :
    (scrapePurchase envC1).success = false ∧
      (scrapePurchase envC1).error = some "boom" ∧
      (scrapePurchase envC1).attachments.map (fun f => f.content) =
        [[1, 2, 3], [4, 5, 6]] :=
  c1_amended_exception_keeps_fetched_attachments envC1 attA attB attC
    [1, 2, 3] [4, 5, 6] "boom" rfl rfl rfl rfl rfl rfl rfl rfl
    (by decide) rfl (by decide) rfl

/-- C10: a detail page fetch that returns an empty string (a successful
fetch of an empty body) still makes scrape_purchase return success False
with the error Failed to fetch detail page and no attachments, because line
477 tests the HTML for truthiness rather than against None. -/
theorem c10_empty_detail_html_fails (env : ScrapeEnv)
    (h : env.detailHtml = some "") :
    (scrapePurchase env).success = false ∧
      (scrapePurchase env).error = some "Failed to fetch detail page" ∧
      (scrapePurchase env).attachments = [] := by
  have ht : truthyS env.detailHtml = false := by rw [h]; rfl
  unfold scrapePurchase
  rw [ht]
  refine ⟨rfl, rfl, rfl⟩

/-- A scrape run whose detail fetch returns an empty body. -/
def envC10 : ScrapeEnv :=
  ⟨some "", ⟨none, none⟩, none, none, [], false, fun _ => Except.ok none⟩

/-- C10 witness at the concrete empty-body environment. -/
theorem c10_empty_detail_html_witness :
    (scrapePurchase envC10).success = false ∧
      (scrapePurchase envC10).error = some "Failed to fetch detail page" ∧
      (scrapePurchase envC10).attachments = [] :=
  c10_empty_detail_html_fails envC10 rfl
